import Mathlib

/-!
Verification of the MatchLife matchmaking backend (src/main.py together with
the request/document schemas of src/schemas.py).

Shallow-embedding conventions:

* The MongoDB `user` collection is modelled as an association list of
  (ObjectId-string, document) pairs; `find_one {"_id": id}` is first-match
  lookup, `update_one` rewrites the first matching document, `delete_one`
  removes the first matching document.  Identifiers are opaque strings; the
  `oid` well-formedness parse (which rejects malformed ObjectId strings with
  a 400 before any handler logic runs) is outside the model, so every id
  appearing here is assumed well formed.
* Python `date` values are (year, month, day) triples of integers, and the
  `date(y, m, d)` constructor raising `ValueError` is modelled by `mkDate`
  returning `none`, which propagates to the whole request (an HTTP 500).
  MongoDB compares the stored `isoformat()` strings lexicographically; for
  the representable years 1..9999 the zero-padded ISO form makes string
  comparison agree with lexicographic comparison of the (y, m, d) triples,
  which is what `Date.le` implements.
* `HTTPException` raised by a handler is an `Except.error` carrying one of
  the specification's error kinds (`Err`); raising happens before any write,
  so an error result leaves the store unchanged by construction.
* Closed string enums (`Literal[...]` in src/schemas.py) whose values are
  claim-relevant are inductive types (`Religion`, `Religiosity`); the seven
  lifestyle enums stay strings since only their equality and their defaults
  matter to the claims.  All enum serialisations are nonempty strings, so
  Python truthiness (`if q.agama:`) coincides with presence for them, while
  for free-text fields (`lokasi`, `pekerjaan`, `pendidikan`) truthiness also
  drops the empty string.
-/

namespace MatchLife

/-- Error kinds of the specification, §7: `invalidOperation` is an
HTTP 400 raised by a handler, `notFound` a 404, `forbidden` a 403. -/
inductive Err where
  | invalidOperation
  | notFound
  | forbidden
deriving DecidableEq

/-- Closed religion enum of src/schemas.py line 10. -/
inductive Religion where
  | islam
  | katolik
  | protestan
  | hindu
  | budha
  | khonghucu
  | agnostik
  | lainnya
deriving DecidableEq

/-- Closed religiosity enum of src/schemas.py line 13. -/
inductive Religiosity where
  | tidakMenjalankan
  | moderat
  | strict
deriving DecidableEq

/-- Python `date` as a (year, month, day) triple (src/main.py line 110,
`date.today()` and the `date(...)` constructions on lines 116 and 119). -/
structure Date where
  year : Int
  month : Int
  day : Int
deriving DecidableEq

/-- Gregorian leap-year rule used by Python's `datetime.date`. -/
def isLeapYear (y : Int) : Bool :=
  y % 4 == 0 && (y % 100 != 0 || y % 400 == 0)

/-- Number of days of month `m` in year `y` (Python `calendar` rule). -/
def daysInMonth (y m : Int) : Int :=
  if m == 2 then (if isLeapYear y then 29 else 28)
  else if m == 4 || m == 6 || m == 9 || m == 11 then 30
  else 31

/-- Python `date(y, m, d)` succeeds exactly on these triples. -/
def isValidDate (y m d : Int) : Bool :=
  decide (1 ≤ y) && decide (y ≤ 9999) && decide (1 ≤ m) && decide (m ≤ 12) &&
    decide (1 ≤ d) && decide (d ≤ daysInMonth y m)

/-- Python `date(y, m, d)`: `none` models the `ValueError` raised on an
invalid triple (e.g. Feb 29 of a non-leap year). -/
def mkDate (y m d : Int) : Option Date :=
  if isValidDate y m d then some ⟨y, m, d⟩ else none

/-- Order of `Date` values; agrees with MongoDB's lexicographic comparison
of the zero-padded `isoformat()` strings for every representable date. -/
def Date.le (a b : Date) : Bool :=
  decide (a.year < b.year) ||
    (decide (a.year = b.year) &&
      (decide (a.month < b.month) ||
        (decide (a.month = b.month) && decide (a.day ≤ b.day))))

/-- Nested lifestyle record, src/schemas.py lines 24-31.  The seven
sub-attributes are closed string enums; none of them is optional. -/
structure Lifestyle where
  merokok : String
  alkohol : String
  pola_makan : String
  aktivitas_fisik : String
  kebiasaan_tidur : String
  pengelolaan_waktu : String
  kebiasaan_belanja : String
deriving DecidableEq

/-- The schema defaults of src/schemas.py lines 25-31. -/
def Lifestyle.defaults : Lifestyle :=
  ⟨"tidak", "tidak", "bebas", "sedang", "fleksibel", "campuran", "moderat"⟩

/-- A client-supplied (pre-validation) lifestyle filter: which of the seven
sub-attributes the request body actually carries. -/
structure LifestyleInput where
  merokok : Option String := none
  alkohol : Option String := none
  pola_makan : Option String := none
  aktivitas_fisik : Option String := none
  kebiasaan_tidur : Option String := none
  pengelolaan_waktu : Option String := none
  kebiasaan_belanja : Option String := none
deriving DecidableEq

/-- Pydantic validation of a lifestyle object: every absent sub-attribute is
filled with its schema default (src/schemas.py lines 25-31). -/
def validateLifestyle (i : LifestyleInput) : Lifestyle :=
  { merokok := i.merokok.getD "tidak"
    alkohol := i.alkohol.getD "tidak"
    pola_makan := i.pola_makan.getD "bebas"
    aktivitas_fisik := i.aktivitas_fisik.getD "sedang"
    kebiasaan_tidur := i.kebiasaan_tidur.getD "fleksibel"
    pengelolaan_waktu := i.pengelolaan_waktu.getD "campuran"
    kebiasaan_belanja := i.kebiasaan_belanja.getD "moderat" }

/-- Python `lifestyle.model_dump(exclude_none=True)` (src/main.py line 136)
in schema field order.  No `Lifestyle` field is optional, so after
validation none is ever `None` and nothing is ever excluded. -/
def Lifestyle.dumpExcludeNone (l : Lifestyle) : List (String × String) :=
  [("merokok", l.merokok), ("alkohol", l.alkohol), ("pola_makan", l.pola_makan),
   ("aktivitas_fisik", l.aktivitas_fisik), ("kebiasaan_tidur", l.kebiasaan_tidur),
   ("pengelolaan_waktu", l.pengelolaan_waktu), ("kebiasaan_belanja", l.kebiasaan_belanja)]

/-- A stored user document (src/schemas.py lines 40-71).  Free-text and
numeric demographic fields never read by any handler logic (suku, hobi,
tinggi_cm, ..., social links, foto_url) are omitted; every field any
endpoint filters on or mutates is present. -/
structure UserDoc where
  email : String
  name : String
  tanggal_lahir : Date
  status : String
  agama : Religion
  level_agama : Religiosity
  kota : Option String
  pekerjaan : Option String
  pendapatan_per_bulan : Option Int
  pendidikan : Option String
  lifestyle : Lifestyle
  verified : Bool
  approved : Bool
  liked_user_ids : List String
  «matches» : List String
deriving DecidableEq

/-- The `user` collection: an association list keyed by ObjectId string. -/
abbrev Store : Type := List (String × UserDoc)

/-- MongoDB `find_one {"_id": id}`: first document with the given key. -/
def findById (s : Store) (id : String) : Option UserDoc :=
  match s with
  | [] => none
  | (i, u) :: rest => if i = id then some u else findById rest id

/-- MongoDB `update_one {"_id": id}`: rewrite the first matching document. -/
def updateById (s : Store) (id : String) (f : UserDoc → UserDoc) : Store :=
  match s with
  | [] => []
  | (i, u) :: rest =>
      if i = id then (i, f u) :: rest else (i, u) :: updateById rest id f

/-- MongoDB `delete_one {"_id": id}`: remove the first matching document. -/
def deleteById (s : Store) (id : String) : Store :=
  match s with
  | [] => []
  | (i, u) :: rest => if i = id then rest else (i, u) :: deleteById rest id

/-- MongoDB `_id` keys are unique within a collection. -/
def keysNodup (s : Store) : Prop := (s.map Prod.fst).Nodup

/-- MongoDB `$addToSet`: append the value unless it is already a member. -/
def addToSet (l : List String) (x : String) : List String :=
  if x ∈ l then l else l ++ [x]

/-- Search request body (src/schemas.py lines 86-95); its lifestyle field,
when supplied, has already been validated (defaults filled in). -/
structure SearchQuery where
  usia_min : Option Int := none
  usia_max : Option Int := none
  lokasi : Option String := none
  agama : Option Religion := none
  level_agama : Option Religiosity := none
  pekerjaan : Option String := none
  pendapatan_min : Option Int := none
  pendidikan : Option String := none
  lifestyle : Option Lifestyle := none
deriving DecidableEq

/-- The query with no field supplied. -/
def SearchQuery.empty : SearchQuery := {}

/-- One atomic MongoDB predicate produced by `search_profiles`
(src/main.py lines 109-137); the pair `$lte`/`$gte` stored under the single
dictionary key "tanggal_lahir" is split into its two atoms `birthLe` and
`birthGe`. -/
inductive Constraint where
  | approvedEq (b : Bool)
  | birthLe (d : Date)
  | birthGe (d : Date)
  | kotaRegex (pat : String)
  | agamaEq (r : Religion)
  | levelAgamaEq (r : Religiosity)
  | pekerjaanRegex (pat : String)
  | pendapatanGe (n : Int)
  | pendidikanRegex (pat : String)
  | lifestyleEq (k v : String)
deriving DecidableEq

/-- The age block of src/main.py lines 111-121: when at least one bound is
supplied, `usia_min` contributes `tanggal_lahir $lte date(today.year - min,
today.month, today.day)` and `usia_max` contributes `$gte date(today.year -
max - 1, today.month, today.day)`; a failing `date(...)` construction
aborts the request (`none`). -/
def ageConstraints (q : SearchQuery) (today : Date) : Option (List Constraint) :=
  if q.usia_min.isSome || q.usia_max.isSome then do
    let lte ←
      match q.usia_min with
      | some a => (mkDate (today.year - a) today.month today.day).map (fun d => [Constraint.birthLe d])
      | none => some []
    let gte ←
      match q.usia_max with
      | some b => (mkDate (today.year - b - 1) today.month today.day).map (fun d => [Constraint.birthGe d])
      | none => some []
    some (lte ++ gte)
  else some []

/-- A free-text field filter (src/main.py lines 122, 128, 132): Python's
`if q.field:` skips both an absent field and the empty string. -/
def textConstraint (mk : String → Constraint) (o : Option String) : List Constraint :=
  match o with
  | some s => if s = "" then [] else [mk s]
  | none => []

/-- The lifestyle block of src/main.py lines 135-137: one exact-equality
predicate on the nested field `lifestyle.k` per entry of the validated
object's `model_dump(exclude_none=True)`. -/
def lifestyleConstraints (o : Option Lifestyle) : List Constraint :=
  match o with
  | some ls => ls.dumpExcludeNone.map (fun kv => Constraint.lifestyleEq kv.1 kv.2)
  | none => []

/-- The filter dictionary built by `search_profiles` (src/main.py lines
109-137), in insertion order.  All dictionary keys written are distinct, so
the list order is the dict order. -/
def buildFilters (q : SearchQuery) (today : Date) : Option (List Constraint) := do
  let age ← ageConstraints q today
  some ([Constraint.approvedEq true] ++ age
    ++ textConstraint Constraint.kotaRegex q.lokasi
    ++ (match q.agama with | some r => [Constraint.agamaEq r] | none => [])
    ++ (match q.level_agama with | some r => [Constraint.levelAgamaEq r] | none => [])
    ++ textConstraint Constraint.pekerjaanRegex q.pekerjaan
    ++ (match q.pendapatan_min with | some n => [Constraint.pendapatanGe n] | none => [])
    ++ textConstraint Constraint.pendidikanRegex q.pendidikan
    ++ lifestyleConstraints q.lifestyle)

/-- Whether list `p` starts list `s` (on characters). -/
def charsStartWith : List Char → List Char → Bool
  | [], _ => true
  | _ :: _, [] => false
  | c :: cs, d :: ds => c == d && charsStartWith cs ds

/-- Whether list `p` occurs contiguously inside list `s`. -/
def charsOccur (p : List Char) : List Char → Bool
  | [] => charsStartWith p []
  | d :: ds => charsStartWith p (d :: ds) || charsOccur p ds

/-- Case-insensitive containment: the semantics of the
`{"$regex": pat, "$options": "i"}` predicates for literal patterns
(spec §4.1: case-insensitive substring containment). -/
def containsCI (s pat : String) : Bool :=
  charsOccur pat.toLower.data s.toLower.data

/-- Value of the nested document field `lifestyle.k`. -/
def lifestyleField (l : Lifestyle) (k : String) : Option String :=
  if k = "merokok" then some l.merokok
  else if k = "alkohol" then some l.alkohol
  else if k = "pola_makan" then some l.pola_makan
  else if k = "aktivitas_fisik" then some l.aktivitas_fisik
  else if k = "kebiasaan_tidur" then some l.kebiasaan_tidur
  else if k = "pengelolaan_waktu" then some l.pengelolaan_waktu
  else if k = "kebiasaan_belanja" then some l.kebiasaan_belanja
  else none

/-- MongoDB evaluation of one atomic predicate against a document; an
absent optional field matches no equality/range/regex predicate. -/
def matchesConstraint (u : UserDoc) : Constraint → Bool
  | .approvedEq b => u.approved == b
  | .birthLe d => Date.le u.tanggal_lahir d
  | .birthGe d => Date.le d u.tanggal_lahir
  | .kotaRegex pat => (match u.kota with | some s => containsCI s pat | none => false)
  | .agamaEq r => u.agama == r
  | .levelAgamaEq r => u.level_agama == r
  | .pekerjaanRegex pat =>
      (match u.pekerjaan with | some s => containsCI s pat | none => false)
  | .pendapatanGe n =>
      (match u.pendapatan_per_bulan with | some p => decide (n ≤ p) | none => false)
  | .pendidikanRegex pat =>
      (match u.pendidikan with | some s => containsCI s pat | none => false)
  | .lifestyleEq k v => lifestyleField u.lifestyle k == some v

/-- A document matches a filter set iff it matches every atom
(the dictionary is a conjunction). -/
def matchesFilters (fs : List Constraint) (u : UserDoc) : Bool :=
  fs.all (matchesConstraint u)

/-- The search endpoint (src/main.py lines 107-141): build the filter set,
then return the documents of the collection matching it; `none` is the 500
raised when an age bound yields an invalid date. -/
def search_profiles (s : Store) (q : SearchQuery) (today : Date) :
    Option (List (String × UserDoc)) :=
  (buildFilters q today).map (fun fs => s.filter (fun p => matchesFilters fs p.2))

/-- The like endpoint (src/main.py lines 145-161).  Both documents are read
first; the reciprocity check `payload.from_user_id in u_to["liked_user_ids"]`
therefore sees `toId`'s likes as they were before this call's own
`$addToSet` insert.  On a mutual like both `matches` sets are updated.
Returns the new store and the `mutual` flag of the response. -/
def like_user (s : Store) (fromId toId : String) : Except Err (Store × Bool) :=
  if fromId = toId then .error .invalidOperation
  else
    match findById s fromId, findById s toId with
    | some _uFrom, some uTo =>
        let s1 := updateById s fromId
          (fun u => { u with liked_user_ids := addToSet u.liked_user_ids toId })
        let isMutual := uTo.liked_user_ids.contains fromId
        if isMutual then
          let s2 := updateById s1 fromId
            (fun u => { u with «matches» := addToSet u.«matches» toId })
          let s3 := updateById s2 toId
            (fun u => { u with «matches» := addToSet u.«matches» fromId })
          .ok (s3, true)
        else .ok (s1, false)
    | _, _ => .error .notFound

/-- Lexicographic code-point comparison of character lists: first
difference decides, a proper front segment is smaller.  This is the
comparison Python uses on strings. -/
def charsLt : List Char → List Char → Bool
  | [], [] => false
  | [], _ :: _ => true
  | _ :: _, [] => false
  | c :: cs, d :: ds => decide (c < d) || (c == d && charsLt cs ds)

/-- Python string `<` (code-point lexicographic). -/
def stringLt (a b : String) : Bool := charsLt a.data b.data

/-- The deterministic conversation key `"-".join(sorted([a, b]))` used by
both src/main.py line 175 and line 198.  Python's two-element stable sort
swaps the pair exactly when the second element is strictly smaller. -/
def conversationKey (a b : String) : String :=
  if stringLt b a then b ++ "-" ++ a else a ++ "-" ++ b

/-- One document of the `message` collection (src/main.py lines 199-204);
`created_at` is the insertion timestamp. -/
structure MessageDoc where
  match_id : String
  sender_id : String
  text : String
  created_at : Int
deriving DecidableEq

/-- The send endpoint (src/main.py lines 190-206): only the sender document
is looked up; messaging is gated on the recipient id being in the sender's
`matches` list; on success exactly one message is appended to the message
collection and the user collection is not touched (the user store is not
part of the result because the handler never writes it). -/
def send_message (s : Store) (msgs : List MessageDoc)
    (fromId toId text : String) (now : Int) : Except Err (List MessageDoc) :=
  match findById s fromId with
  | none => .error .notFound
  | some uFrom =>
      if uFrom.«matches».contains toId then
        .ok (msgs ++ [⟨conversationKey fromId toId, fromId, text, now⟩])
      else .error .forbidden

/-- The admin endpoint (src/main.py lines 216-231): the profile is looked up
first (404 when absent), then the action is dispatched.  The request schema
(src/schemas.py lines 82-84) limits `action` to the closed set already at the
validation boundary; the handler itself answers 400 "Unknown action" for any
other string, which this model takes as the processor's behaviour. -/
def admin_action (s : Store) (userId action : String) : Except Err Store :=
  match findById s userId with
  | none => .error .notFound
  | some _u =>
      if action = "approve" then
        .ok (updateById s userId (fun v => { v with approved := true }))
      else if action = "reject" then
        .ok (deleteById s userId)
      else if action = "verify" then
        .ok (updateById s userId (fun v => { v with verified := true }))
      else if action = "unverify" then
        .ok (updateById s userId (fun v => { v with verified := false }))
      else .error .invalidOperation

/-- Result of the checkout endpoint: either the demo/bypass URL returned
without contacting the payment provider, or control reaching the Stripe
session call (whose outcome depends on the external provider). -/
inductive CheckoutOutcome where
  | bypass (checkout_url : String)
  | stripeCall (email : String)
deriving DecidableEq

/-- The checkout endpoint (src/main.py lines 54-58): `if not STRIPE_API_KEY`
is Python truthiness, so the unset key (the empty-string default of
`os.getenv("STRIPE_API_KEY", "")`) selects the bypass branch, which returns
`/onboarding?email=<email>` directly. -/
def create_checkout_session (stripeApiKey email : String) : CheckoutOutcome :=
  if stripeApiKey = "" then .bypass ("/onboarding?email=" ++ email)
  else .stripeCall email

/-- A concrete approved profile used to instantiate theorems on concrete
stores; its likes and matches lists are the two parameters. -/
def sampleUser (liked m : List String) : UserDoc :=
  ⟨"user@example.com", "Sample", ⟨1994, 5, 15⟩, "lajang", .islam, .moderat,
    some "Jakarta", none, none, none, Lifestyle.defaults, false, true, liked, m⟩

/-- A concrete search query supplying an age bound, a location, a religion,
an income bound and a lifestyle filter. -/
def sampleQuery : SearchQuery := { SearchQuery.empty with
  usia_min := some 30,
  lokasi := some "Jakarta",
  agama := some Religion.islam,
  pendapatan_min := some 5,
  lifestyle := some Lifestyle.defaults }

/-- The predicate set the builder produces for `sampleQuery` on
2024-05-15. -/
def sampleQueryFilters : List Constraint :=
  [Constraint.approvedEq true, Constraint.birthLe ⟨1994, 5, 15⟩,
    Constraint.kotaRegex "Jakarta", Constraint.agamaEq Religion.islam,
    Constraint.pendapatanGe 5, Constraint.lifestyleEq "merokok" "tidak",
    Constraint.lifestyleEq "alkohol" "tidak",
    Constraint.lifestyleEq "pola_makan" "bebas",
    Constraint.lifestyleEq "aktivitas_fisik" "sedang",
    Constraint.lifestyleEq "kebiasaan_tidur" "fleksibel",
    Constraint.lifestyleEq "pengelolaan_waktu" "campuran",
    Constraint.lifestyleEq "kebiasaan_belanja" "moderat"]

/-! Helper lemmas about the store and the embedded primitives. -/

theorem charsLt_irrefl : ∀ xs, charsLt xs xs = false := by
  intro xs
  induction xs with
  | nil => rfl
  | cons c cs ih => simp [charsLt, ih]

theorem findById_updateById_self (s : Store) (id : String) (f : UserDoc → UserDoc) :
    findById (updateById s id f) id = (findById s id).map f := by
  induction s with
  | nil => rfl
  | cons p rest ih =>
      obtain ⟨i, u⟩ := p
      by_cases h : i = id
      · simp [updateById, findById, h]
      · simp [updateById, findById, h, ih]

theorem findById_updateById_ne (s : Store) (id j : String) (f : UserDoc → UserDoc)
    (hne : j ≠ id) : findById (updateById s id f) j = findById s j := by
  induction s with
  | nil => rfl
  | cons p rest ih =>
      obtain ⟨i, u⟩ := p
      by_cases h : i = id
      · subst h
        simp [updateById, findById, Ne.symm hne]
      · simp [updateById, findById, h, ih]

theorem findById_deleteById_ne (s : Store) (id j : String) (hne : j ≠ id) :
    findById (deleteById s id) j = findById s j := by
  induction s with
  | nil => rfl
  | cons p rest ih =>
      obtain ⟨i, u⟩ := p
      by_cases h : i = id
      · subst h
        simp [deleteById, findById, Ne.symm hne]
      · simp [deleteById, findById, h, ih]

theorem findById_eq_none_of_not_mem (s : Store) (id : String)
    (h : id ∉ s.map Prod.fst) : findById s id = none := by
  induction s with
  | nil => rfl
  | cons p rest ih =>
      obtain ⟨i, u⟩ := p
      simp only [List.map_cons, List.mem_cons] at h
      push_neg at h
      have hne : ¬ i = id := fun hh => h.1 hh.symm
      simp [findById, hne, ih h.2]

theorem findById_deleteById_self (s : Store) (id : String) (hnd : keysNodup s) :
    findById (deleteById s id) id = none := by
  induction s with
  | nil => rfl
  | cons p rest ih =>
      obtain ⟨i, u⟩ := p
      simp only [keysNodup, List.map_cons, List.nodup_cons] at hnd
      by_cases h : i = id
      · subst h
        simpa [deleteById] using findById_eq_none_of_not_mem rest i hnd.1
      · simp [deleteById, findById, h]
        exact ih hnd.2

theorem contains_addToSet_self (l : List String) (x : String) :
    (addToSet l x).contains x = true := by
  unfold addToSet
  by_cases h : x ∈ l
  · simp [h]
  · simp [h]

theorem addToSet_of_mem (l : List String) (x : String) (h : x ∈ l) :
    addToSet l x = l := by
  simp [addToSet, h]

theorem charsLt_asymm : ∀ xs ys, charsLt xs ys = true → charsLt ys xs = false := by
  intro xs
  induction xs with
  | nil =>
      intro ys h
      cases ys with
      | nil => simp [charsLt] at h
      | cons d ds => simp [charsLt]
  | cons c cs ih =>
      intro ys h
      cases ys with
      | nil => simp [charsLt] at h
      | cons d ds =>
          simp only [charsLt, Bool.or_eq_true, decide_eq_true_eq, Bool.and_eq_true,
            beq_iff_eq] at h
          simp only [charsLt, Bool.or_eq_false_iff, decide_eq_false_iff_not,
            Bool.and_eq_false_iff, beq_eq_false_iff_ne, ne_eq]
          rcases h with hlt | ⟨heq, hrec⟩
          · exact ⟨not_lt_of_gt hlt, Or.inl (fun hdc => absurd (hdc ▸ hlt) (lt_irrefl c))⟩
          · subst heq
            exact ⟨lt_irrefl c, Or.inr (ih ds hrec)⟩

theorem charsLt_total_eq : ∀ xs ys, charsLt xs ys = false → charsLt ys xs = false → xs = ys := by
  intro xs
  induction xs with
  | nil =>
      intro ys h1 _
      cases ys with
      | nil => rfl
      | cons d ds => simp [charsLt] at h1
  | cons c cs ih =>
      intro ys h1 h2
      cases ys with
      | nil => simp [charsLt] at h2
      | cons d ds =>
          simp only [charsLt, Bool.or_eq_false_iff, decide_eq_false_iff_not,
            Bool.and_eq_false_iff, beq_eq_false_iff_ne, ne_eq] at h1 h2
          obtain ⟨hcd, h1'⟩ := h1
          obtain ⟨hdc, h2'⟩ := h2
          have hceq : c = d := le_antisymm (not_lt.mp hdc) (not_lt.mp hcd)
          subst hceq
          have hrec1 : charsLt cs ds = false := by
            rcases h1' with h | h
            · exact absurd rfl h
            · exact h
          have hrec2 : charsLt ds cs = false := by
            rcases h2' with h | h
            · exact absurd rfl h
            · exact h
          rw [ih ds hrec1 hrec2]

theorem stringLt_antisymm_eq (a b : String) (h1 : stringLt a b = false)
    (h2 : stringLt b a = false) : a = b := by
  have hd : a.data = b.data := charsLt_total_eq a.data b.data h1 h2
  cases a; cases b
  exact congrArg String.mk (by simpa using hd)

theorem Date.le_rfl (d : Date) : Date.le d d = true := by
  simp [Date.le]

theorem mem_addToSet_self (l : List String) (x : String) : x ∈ addToSet l x := by
  unfold addToSet
  by_cases h : x ∈ l
  · simp [h]
  · simp [h]

/-- A successful like rewrites exactly the liker's `liked_user_ids` (adding
the liked id with set semantics) and no one else's, whatever the mutual
outcome was. -/
theorem liked_after_like (s : Store) (f t : String) (s' : Store) (m : Bool)
    (hft : f ≠ t) (h : like_user s f t = .ok (s', m)) (id : String) :
    (findById s' id).map UserDoc.liked_user_ids =
      if id = f then (findById s f).map (fun u => addToSet u.liked_user_ids t)
      else (findById s id).map UserDoc.liked_user_ids := by
  rcases hf : findById s f with _ | uf <;> rcases ht : findById s t with _ | ut
  · simp [like_user, hft, hf, ht] at h
  · simp [like_user, hft, hf, ht] at h
  · simp [like_user, hft, hf, ht] at h
  · by_cases hm : f ∈ ut.liked_user_ids
    · have hs' : s' = updateById (updateById (updateById s f
          (fun u => { u with liked_user_ids := addToSet u.liked_user_ids t })) f
          (fun u => { u with «matches» := addToSet u.«matches» t })) t
          (fun u => { u with «matches» := addToSet u.«matches» f }) := by
        simp [like_user, hft, hf, ht, hm] at h
        exact h.1.symm
      subst hs'
      by_cases hidf : id = f
      · subst hidf
        rw [findById_updateById_ne _ t id _ hft, findById_updateById_self,
          findById_updateById_self, hf]
        simp
      · by_cases hidt : id = t
        · subst hidt
          rw [findById_updateById_self,
            findById_updateById_ne _ f id _ (Ne.symm hft),
            findById_updateById_ne _ f id _ (Ne.symm hft), ht]
          simp [hidf]
        · rw [findById_updateById_ne _ t id _ hidt,
            findById_updateById_ne _ f id _ hidf,
            findById_updateById_ne _ f id _ hidf]
          simp [hidf]
    · have hs' : s' = updateById s f
          (fun u => { u with liked_user_ids := addToSet u.liked_user_ids t }) := by
        simp [like_user, hft, hf, ht, hm] at h
        exact h.1.symm
      subst hs'
      by_cases hidf : id = f
      · subst hidf
        rw [findById_updateById_self, hf]
        simp
      · rw [findById_updateById_ne _ f id _ hidf]
        simp [hidf]

/-! Claim theorems. -/

/-- C1: for distinct existing profiles, a first like with no prior
reciprocal like returns mutual = false and changes neither matches set; the
reciprocal like then returns mutual = true and makes the match
bidirectional; mutuality is decided on the liked user's `liked_user_ids`
list as read before the call's own insert. -/
theorem like_user_mutual_match (s : Store) (A B : String) (uA uB : UserDoc)
    (hne : A ≠ B) (hA : findById s A = some uA) (hB : findById s B = some uB)
    (hprev : uB.liked_user_ids.contains A = false) :
    ∃ s1, like_user s A B = .ok (s1, false) ∧
      (∃ uA1, findById s1 A = some uA1 ∧ uA1.«matches» = uA.«matches») ∧
      (∃ uB1, findById s1 B = some uB1 ∧ uB1.«matches» = uB.«matches») ∧
      ∃ s2, like_user s1 B A = .ok (s2, true) ∧
        (∃ uA2, findById s2 A = some uA2 ∧ uA2.«matches».contains B = true) ∧
        (∃ uB2, findById s2 B = some uB2 ∧ uB2.«matches».contains A = true) := by
  have hprev' : A ∉ uB.liked_user_ids := by simpa using hprev
  refine ⟨updateById s A
    (fun u => { u with liked_user_ids := addToSet u.liked_user_ids B }), ?_, ?_, ?_, ?_⟩
  · simp [like_user, hne, hA, hB, hprev']
  · refine ⟨{ uA with liked_user_ids := addToSet uA.liked_user_ids B }, ?_, rfl⟩
    rw [findById_updateById_self, hA]
    rfl
  · refine ⟨uB, ?_, rfl⟩
    rw [findById_updateById_ne _ A B _ (Ne.symm hne), hB]
  · have hA1 : findById (updateById s A
        (fun u => { u with liked_user_ids := addToSet u.liked_user_ids B })) A =
        some { uA with liked_user_ids := addToSet uA.liked_user_ids B } := by
      rw [findById_updateById_self, hA]
      rfl
    have hB1 : findById (updateById s A
        (fun u => { u with liked_user_ids := addToSet u.liked_user_ids B })) B =
        some uB := by
      rw [findById_updateById_ne _ A B _ (Ne.symm hne), hB]
    refine ⟨updateById (updateById (updateById (updateById s A
        (fun u => { u with liked_user_ids := addToSet u.liked_user_ids B })) B
        (fun u => { u with liked_user_ids := addToSet u.liked_user_ids A })) B
        (fun u => { u with «matches» := addToSet u.«matches» A })) A
        (fun u => { u with «matches» := addToSet u.«matches» B }), ?_, ?_, ?_⟩
    · simp [like_user, Ne.symm hne, hA1, hB1, mem_addToSet_self]
    · refine ⟨{ uA with liked_user_ids := addToSet uA.liked_user_ids B, «matches» := addToSet uA.«matches» B }, ?_, ?_⟩
      · rw [findById_updateById_self,
          findById_updateById_ne _ B A _ hne,
          findById_updateById_ne _ B A _ hne, hA1]
        rfl
      · exact contains_addToSet_self _ B
    · refine ⟨{ uB with liked_user_ids := addToSet uB.liked_user_ids A, «matches» := addToSet uB.«matches» A }, ?_, ?_⟩
      · rw [findById_updateById_ne _ A B _ (Ne.symm hne),
          findById_updateById_self, findById_updateById_self, hB1]
        rfl
      · exact contains_addToSet_self _ A

/-- C1 witness: a concrete two-profile store where A likes B and then
B likes A. -/
theorem like_user_mutual_match_witness :
    ∃ s1, like_user [("aaa", sampleUser [] []), ("bbb", sampleUser [] [])]
        "aaa" "bbb" = .ok (s1, false) ∧
      (∃ uA1, findById s1 "aaa" = some uA1 ∧ uA1.«matches» = (sampleUser [] []).«matches») ∧
      (∃ uB1, findById s1 "bbb" = some uB1 ∧ uB1.«matches» = (sampleUser [] []).«matches») ∧
      ∃ s2, like_user s1 "bbb" "aaa" = .ok (s2, true) ∧
        (∃ uA2, findById s2 "aaa" = some uA2 ∧ uA2.«matches».contains "bbb" = true) ∧
        (∃ uB2, findById s2 "bbb" = some uB2 ∧ uB2.«matches».contains "aaa" = true) :=
  like_user_mutual_match [("aaa", sampleUser [] []), ("bbb", sampleUser [] [])]
    "aaa" "bbb" (sampleUser [] []) (sampleUser [] [])
    (by decide) rfl rfl (by decide)

/-- C5: recordLike rejects a self-like as invalidOperation, answers
notFound when either id does not resolve, and is idempotent on likes:
running the same (from, to) like twice leaves every profile's
`liked_user_ids` exactly as after running it once. -/
theorem like_user_errors_idempotent (s : Store) (f t x : String) :
    (like_user s x x = .error .invalidOperation) ∧
    (f ≠ t → (findById s f = none ∨ findById s t = none) →
      like_user s f t = .error .notFound) ∧
    (∀ s1 m1 s2 m2, like_user s f t = .ok (s1, m1) → like_user s1 f t = .ok (s2, m2) →
      ∀ id, (findById s2 id).map UserDoc.liked_user_ids =
        (findById s1 id).map UserDoc.liked_user_ids) := by
  refine ⟨by simp [like_user], ?_, ?_⟩
  · intro hne hnone
    rcases hf : findById s f with _ | uf <;> rcases ht : findById s t with _ | ut <;>
      simp [like_user, hne, hf, ht]
    rcases hnone with h | h
    · exact absurd hf (by simp [h])
    · exact absurd ht (by simp [h])
  · intro s1 m1 s2 m2 h1 h2 id
    by_cases hft : f = t
    · subst hft
      simp [like_user] at h1
    rw [liked_after_like s1 f t s2 m2 hft h2 id]
    by_cases hid : id = f
    · rw [hid, if_pos rfl]
      have L1 := liked_after_like s f t s1 m1 hft h1 f
      rw [if_pos rfl] at L1
      rcases h1f : findById s1 f with _ | u1
      · simp
      · rw [h1f] at L1
        rcases hsf : findById s f with _ | uf
        · rw [hsf] at L1
          simp at L1
        · rw [hsf] at L1
          simp only [Option.map] at L1 ⊢
          have hu1 : u1.liked_user_ids = addToSet uf.liked_user_ids t :=
            Option.some.inj L1
          rw [hu1, addToSet_of_mem _ t (mem_addToSet_self _ t)]
    · rw [if_neg hid]

/-- C5 witness: a self-like, a like to a missing profile, and a repeated
like on a concrete store: the first like moves the store to a state with
the edge recorded, the second returns the identical liked state. -/
theorem like_user_errors_idempotent_witness :
    like_user [("aaa", sampleUser [] [])] "aaa" "aaa" = .error .invalidOperation ∧
    like_user [("aaa", sampleUser [] [])] "aaa" "zzz" = .error .notFound ∧
    like_user [("aaa", sampleUser [] []), ("bbb", sampleUser [] [])] "aaa" "bbb" =
      .ok ([("aaa", sampleUser ["bbb"] []), ("bbb", sampleUser [] [])], false) ∧
    like_user [("aaa", sampleUser ["bbb"] []), ("bbb", sampleUser [] [])] "aaa" "bbb" =
      .ok ([("aaa", sampleUser ["bbb"] []), ("bbb", sampleUser [] [])], false) ∧
    ∀ id, (findById [("aaa", sampleUser ["bbb"] []), ("bbb", sampleUser [] [])] id).map
        UserDoc.liked_user_ids =
      (findById [("aaa", sampleUser ["bbb"] []), ("bbb", sampleUser [] [])] id).map
        UserDoc.liked_user_ids := by
  refine ⟨(like_user_errors_idempotent [("aaa", sampleUser [] [])] "x" "y" "aaa").1,
    (like_user_errors_idempotent [("aaa", sampleUser [] [])] "aaa" "zzz" "x").2.1
      (by decide) (Or.inr rfl), rfl, rfl, ?_⟩
  exact (like_user_errors_idempotent [("aaa", sampleUser [] []), ("bbb", sampleUser [] [])]
    "aaa" "bbb" "x").2.2 _ false _ false rfl rfl

/-- C6: the conversation key function is pure, total and symmetric:
`conversationKey a b = conversationKey b a` for every pair of identifiers,
and the result is the two identifiers sorted ascending (by Python string
order) joined with the fixed delimiter "-". -/
theorem conversationKey_symmetric_sorted (a b : String) :
    conversationKey a b = conversationKey b a ∧
    (stringLt a b = true → conversationKey a b = a ++ "-" ++ b) ∧
    (stringLt b a = true → conversationKey a b = b ++ "-" ++ a) ∧
    (a = b → conversationKey a b = a ++ "-" ++ b) := by
  refine ⟨?_, ?_, ?_, ?_⟩
  · unfold conversationKey
    cases h1 : stringLt b a <;> cases h2 : stringLt a b <;> simp
    · rw [stringLt_antisymm_eq a b h2 h1]
    · have := charsLt_asymm a.data b.data h2
      rw [stringLt] at h1
      rw [this] at h1
      exact absurd h1 (by simp)
  · intro h
    have hfalse : stringLt b a = false := charsLt_asymm a.data b.data h
    simp [conversationKey, hfalse]
  · intro h
    simp [conversationKey, h]
  · intro h
    subst h
    simp [conversationKey, stringLt, charsLt_irrefl]

/-- C6 witness: at a concrete pair the key is symmetric and equals the
ascending-sorted join. -/
theorem conversationKey_symmetric_sorted_witness :
    stringLt "abc" "abd" = true ∧ conversationKey "abc" "abd" = "abc-abd" ∧
      conversationKey "abd" "abc" = "abc-abd" := by
  refine ⟨by decide, (conversationKey_symmetric_sorted "abc" "abd").2.1 (by decide), ?_⟩
  rw [← (conversationKey_symmetric_sorted "abc" "abd").1]
  exact (conversationKey_symmetric_sorted "abc" "abd").2.1 (by decide)

/-- C9: with the payment-provider API key absent (the empty-string default
of the environment lookup), the checkout endpoint does not fail and returns
the direct onboarding URL carrying the email as a query parameter instead
of reaching the payment-provider call. -/
theorem create_checkout_session_bypass (email : String) :
    create_checkout_session "" email =
      CheckoutOutcome.bypass ("/onboarding?email=" ++ email) := rfl

/-- C7: sendMessage answers notFound for an unknown sender; forbidden
whenever the recipient id is not in the sender's matches list (whether or
not the recipient profile exists); otherwise it appends exactly one message
keyed by the conversation key, carrying the sender id, the text and the
current timestamp, and changes nothing else (the user store is never
written by this handler). -/
theorem send_message_spec (s : Store) (msgs : List MessageDoc)
    (fromId toId text : String) (now : Int) :
    (findById s fromId = none →
      send_message s msgs fromId toId text now = .error .notFound) ∧
    (∀ u, findById s fromId = some u → u.«matches».contains toId = false →
      send_message s msgs fromId toId text now = .error .forbidden) ∧
    (∀ u, findById s fromId = some u → u.«matches».contains toId = true →
      send_message s msgs fromId toId text now =
        .ok (msgs ++ [⟨conversationKey fromId toId, fromId, text, now⟩])) := by
  refine ⟨?_, ?_, ?_⟩
  · intro h
    simp [send_message, h]
  · intro u hu hc
    have hc' : toId ∉ u.«matches» := by simpa using hc
    simp [send_message, hu, hc']
  · intro u hu hc
    have hc' : toId ∈ u.«matches» := by simpa using hc
    simp [send_message, hu, hc']

/-- C7 witness: with both profiles existing but unmatched the send is
forbidden; with the recipient in the sender's matches it succeeds. -/
theorem send_message_spec_witness :
    send_message [("aaa", sampleUser [] []), ("bbb", sampleUser [] [])] []
        "aaa" "bbb" "hi" 0 = .error .forbidden ∧
    send_message [("aaa", sampleUser [] ["bbb"])] [] "aaa" "bbb" "hi" 0 =
      .ok ([] ++ [⟨conversationKey "aaa" "bbb", "aaa", "hi", 0⟩]) := by
  constructor
  · exact (send_message_spec [("aaa", sampleUser [] []), ("bbb", sampleUser [] [])]
      [] "aaa" "bbb" "hi" 0).2.1 (sampleUser [] []) rfl (by decide)
  · exact (send_message_spec [("aaa", sampleUser [] ["bbb"])]
      [] "aaa" "bbb" "hi" 0).2.2 (sampleUser [] ["bbb"]) rfl (by decide)

/-- C10: sendMessage never looks the recipient up: whenever the recipient
id is in the sender's matches list the message is appended even though no
profile with that id exists in the store (e.g. after an admin reject
deleted it). -/
theorem send_message_ignores_recipient_existence (s : Store)
    (msgs : List MessageDoc) (fromId toId text : String) (now : Int)
    (u : UserDoc) (h1 : findById s fromId = some u)
    (h2 : u.«matches».contains toId = true) (h3 : findById s toId = none) :
    send_message s msgs fromId toId text now =
      .ok (msgs ++ [⟨conversationKey fromId toId, fromId, text, now⟩]) := by
  have h2' : toId ∈ u.«matches» := by simpa using h2
  simp [send_message, h1, h2']

/-- C10 witness: after an admin reject deletes the matched profile "bbb",
the sender "aaa" can still append a message under the conversation key. -/
theorem send_message_ignores_recipient_existence_witness :
    admin_action [("aaa", sampleUser [] ["bbb"]), ("bbb", sampleUser [] ["aaa"])]
        "bbb" "reject" = .ok [("aaa", sampleUser [] ["bbb"])] ∧
    findById [("aaa", sampleUser [] ["bbb"])] "bbb" = none ∧
    send_message [("aaa", sampleUser [] ["bbb"])] [] "aaa" "bbb" "hi" 0 =
      .ok ([] ++ [⟨conversationKey "aaa" "bbb", "aaa", "hi", 0⟩]) := by
  refine ⟨rfl, rfl, ?_⟩
  exact send_message_ignores_recipient_existence [("aaa", sampleUser [] ["bbb"])]
    [] "aaa" "bbb" "hi" 0 (sampleUser [] ["bbb"]) rfl (by decide) rfl

/-- C8: the admin processor answers notFound for an absent profile; on an
existing profile, approve sets only the approved flag, reject deletes the
record (a subsequent find returns none), verify and unverify set only the
verified flag; in each case every other field of the document and every
other document are unchanged; any action outside the closed set (e.g.
"archive") answers invalidOperation, and since the error is raised without
any store write, it changes no state. -/
theorem admin_action_spec (s : Store) (id : String) (u : UserDoc)
    (hnd : keysNodup s) :
    (findById s id = none → ∀ a, admin_action s id a = .error .notFound) ∧
    (findById s id = some u →
      (∃ s', admin_action s id "approve" = .ok s' ∧
        findById s' id = some { u with approved := true } ∧
        ∀ j, j ≠ id → findById s' j = findById s j) ∧
      (∃ s', admin_action s id "reject" = .ok s' ∧
        findById s' id = none ∧
        ∀ j, j ≠ id → findById s' j = findById s j) ∧
      (∃ s', admin_action s id "verify" = .ok s' ∧
        findById s' id = some { u with verified := true } ∧
        ∀ j, j ≠ id → findById s' j = findById s j) ∧
      (∃ s', admin_action s id "unverify" = .ok s' ∧
        findById s' id = some { u with verified := false } ∧
        ∀ j, j ≠ id → findById s' j = findById s j) ∧
      (∀ a, a ≠ "approve" → a ≠ "reject" → a ≠ "verify" → a ≠ "unverify" →
        admin_action s id a = .error .invalidOperation)) := by
  constructor
  · intro h a
    simp [admin_action, h]
  · intro h
    refine ⟨?_, ?_, ?_, ?_, ?_⟩
    · refine ⟨updateById s id (fun v => { v with approved := true }), ?_, ?_, ?_⟩
      · simp [admin_action, h]
      · rw [findById_updateById_self, h]
        rfl
      · intro j hj
        exact findById_updateById_ne s id j _ hj
    · refine ⟨deleteById s id, ?_, ?_, ?_⟩
      · simp [admin_action, h]
      · exact findById_deleteById_self s id hnd
      · intro j hj
        exact findById_deleteById_ne s id j hj
    · refine ⟨updateById s id (fun v => { v with verified := true }), ?_, ?_, ?_⟩
      · simp [admin_action, h]
      · rw [findById_updateById_self, h]
        rfl
      · intro j hj
        exact findById_updateById_ne s id j _ hj
    · refine ⟨updateById s id (fun v => { v with verified := false }), ?_, ?_, ?_⟩
      · simp [admin_action, h]
      · rw [findById_updateById_self, h]
        rfl
      · intro j hj
        exact findById_updateById_ne s id j _ hj
    · intro a h1 h2 h3 h4
      simp [admin_action, h, h1, h2, h3, h4]

/-- C8 witness: on a concrete one-profile store the unknown action
"archive" is rejected as invalidOperation. -/
theorem admin_action_spec_witness :
    admin_action [("aaa", sampleUser [] [])] "aaa" "archive" =
      .error .invalidOperation :=
  (((admin_action_spec [("aaa", sampleUser [] [])] "aaa" (sampleUser [] [])
      (by simp [keysNodup])).2 rfl).2.2.2.2) "archive"
    (by decide) (by decide) (by decide) (by decide)

/-- Length of the age block: one atom per supplied bound. -/
theorem ageConstraints_length (q : SearchQuery) (today : Date)
    (cs : List Constraint) (h : ageConstraints q today = some cs) :
    cs.length = (if q.usia_min.isSome then 1 else 0) +
      (if q.usia_max.isSome then 1 else 0) := by
  rcases hmin : q.usia_min with _ | a <;> rcases hmax : q.usia_max with _ | b
  · rw [ageConstraints, hmin, hmax] at h
    simp at h
    simp [hmin, hmax, ← h]
  · rw [ageConstraints, hmin, hmax] at h
    rcases hd : mkDate (today.year - b - 1) today.month today.day with _ | d <;>
      simp [hd] at h
    simp [hmin, hmax, ← h]
  · rw [ageConstraints, hmin, hmax] at h
    rcases hd : mkDate (today.year - a) today.month today.day with _ | d <;>
      simp [hd] at h
    simp [hmin, hmax, ← h]
  · rw [ageConstraints, hmin, hmax] at h
    rcases hd : mkDate (today.year - a) today.month today.day with _ | d <;>
      rcases hd' : mkDate (today.year - b - 1) today.month today.day with _ | d' <;>
      simp [hd, hd'] at h
    simp [hmin, hmax, ← h]

/-- Length of one free-text block: one atom when supplied non-empty. -/
theorem textConstraint_length (mk : String → Constraint) (o : Option String) :
    (textConstraint mk o).length =
      (match o with | some s => if s = "" then 0 else 1 | none => 0) := by
  rcases o with _ | s
  · rfl
  · by_cases hs : s = "" <;> simp [textConstraint, hs]

/-- Length of the lifestyle block: seven atoms whenever a lifestyle filter
is supplied, none otherwise. -/
theorem lifestyleConstraints_length (o : Option Lifestyle) :
    (lifestyleConstraints o).length = if o.isSome then 7 else 0 := by
  rcases o with _ | ls <;> rfl

/-- C2 corrected: the filter set always starts with the approved = true
constraint; each supplied bound, enum or numeric field (usia_min, usia_max,
agama, level_agama, pendapatan_min) contributes exactly one constraint; a
free-text field (lokasi, pekerjaan, pendidikan) contributes exactly one
constraint when supplied non-empty and none when omitted or supplied as the
empty string (Python truthiness); a supplied lifestyle filter contributes
exactly seven constraints; omitted fields contribute none, and the empty
query yields exactly the approved filter. -/
theorem buildFilters_shape (q : SearchQuery) (today : Date)
    (fs : List Constraint) (h : buildFilters q today = some fs) :
    fs.head? = some (Constraint.approvedEq true) ∧
    fs.length = 1 + (if q.usia_min.isSome then 1 else 0) +
      (if q.usia_max.isSome then 1 else 0) +
      (match q.lokasi with | some s => if s = "" then 0 else 1 | none => 0) +
      (if q.agama.isSome then 1 else 0) +
      (if q.level_agama.isSome then 1 else 0) +
      (match q.pekerjaan with | some s => if s = "" then 0 else 1 | none => 0) +
      (if q.pendapatan_min.isSome then 1 else 0) +
      (match q.pendidikan with | some s => if s = "" then 0 else 1 | none => 0) +
      (if q.lifestyle.isSome then 7 else 0) ∧
    (q = SearchQuery.empty → fs = [Constraint.approvedEq true]) := by
  rcases hage : ageConstraints q today with _ | age
  · rw [buildFilters, hage] at h
    exact Option.noConfusion h
  rw [buildFilters, hage] at h
  have hfs := (Option.some.inj h).symm
  refine ⟨?_, ?_, ?_⟩
  · rw [hfs]
    rfl
  · rw [hfs]
    simp only [List.length_append, List.length_cons, List.length_nil,
      textConstraint_length, lifestyleConstraints_length,
      ageConstraints_length q today age hage]
    rcases q.agama with _ | r <;> rcases q.level_agama with _ | r' <;>
      rcases q.pendapatan_min with _ | n <;> simp <;> omega
  · intro hq
    subst hq
    have hage0 : age = [] := by
      rw [ageConstraints] at hage
      simpa [SearchQuery.empty] using hage.symm
    rw [hfs, hage0]
    rfl

/-- C2 witness: the builder output on `sampleQuery` starts with the
approved constraint and has the predicted length. -/
theorem buildFilters_shape_witness :
    buildFilters sampleQuery ⟨2024, 5, 15⟩ = some sampleQueryFilters ∧
    sampleQueryFilters.head? = some (Constraint.approvedEq true) ∧
    sampleQueryFilters.length = 12 := by
  refine ⟨by decide, ?_, ?_⟩
  · exact (buildFilters_shape sampleQuery ⟨2024, 5, 15⟩ sampleQueryFilters (by decide)).1
  · exact ((buildFilters_shape sampleQuery ⟨2024, 5, 15⟩ sampleQueryFilters
      (by decide)).2.1).trans rfl

/-- C2 as stated is false: the query supplying lokasi as the empty string
is an explicitly supplied field, yet the produced predicate set is exactly
the approved filter, with no additional constraint (Python `if q.lokasi:`
treats the empty string as absent). -/
theorem buildFilters_counterexample :
    ({ SearchQuery.empty with lokasi := some "" } : SearchQuery).lokasi = some "" ∧
    buildFilters { SearchQuery.empty with lokasi := some "" } ⟨2024, 5, 15⟩ =
      some [Constraint.approvedEq true] :=
  ⟨rfl, by decide⟩

/-- C3 corrected: the builder converts age bounds to an inclusive
birth-date range, usia_min = a giving birth date <= today minus a years and
usia_max = b giving birth date >= today minus (b+1) years; a profile born
exactly today minus a years is matched by the (a, a) search and excluded by
the (a+1) search -- provided the derived dates exist as calendar dates
(the hypotheses on mkDate; Python raises ValueError otherwise). -/
theorem age_bounds_inclusive (today : Date) (a b : Int) (bd bdA bdB : Date)
    (u : UserDoc)
    (h1 : mkDate (today.year - a) today.month today.day = some bd)
    (h2 : mkDate (today.year - a - 1) today.month today.day = some bdA)
    (h3 : mkDate (today.year - b - 1) today.month today.day = some bdB)
    (hu : u.tanggal_lahir = bd) (happ : u.approved = true) :
    bd = ⟨today.year - a, today.month, today.day⟩ ∧
    bdA = ⟨today.year - a - 1, today.month, today.day⟩ ∧
    buildFilters { SearchQuery.empty with usia_min := some a, usia_max := some b }
      today = some [Constraint.approvedEq true, Constraint.birthLe bd,
        Constraint.birthGe bdB] ∧
    buildFilters { SearchQuery.empty with usia_min := some a, usia_max := some a }
      today = some [Constraint.approvedEq true, Constraint.birthLe bd,
        Constraint.birthGe bdA] ∧
    matchesFilters [Constraint.approvedEq true, Constraint.birthLe bd,
      Constraint.birthGe bdA] u = true ∧
    buildFilters { SearchQuery.empty with usia_min := some (a + 1) } today =
      some [Constraint.approvedEq true, Constraint.birthLe bdA] ∧
    matchesFilters [Constraint.approvedEq true, Constraint.birthLe bdA] u = false := by
  have hbd : bd = ⟨today.year - a, today.month, today.day⟩ := by
    rw [mkDate] at h1
    split at h1
    · exact (Option.some.inj h1).symm
    · exact Option.noConfusion h1
  have hbdA : bdA = ⟨today.year - a - 1, today.month, today.day⟩ := by
    rw [mkDate] at h2
    split at h2
    · exact (Option.some.inj h2).symm
    · exact Option.noConfusion h2
  have harg : today.year - (a + 1) = today.year - a - 1 := by omega
  have hle : Date.le bdA bd = true := by
    rw [hbd, hbdA]
    simp [Date.le]
  have hnle : Date.le bd bdA = false := by
    rw [hbd, hbdA]
    simp [Date.le]
    omega
  refine ⟨hbd, hbdA, ?_, ?_, ?_, ?_, ?_⟩
  · simp [buildFilters, ageConstraints, SearchQuery.empty, h1, h3,
      textConstraint, lifestyleConstraints]
  · simp [buildFilters, ageConstraints, SearchQuery.empty, h1, h2,
      textConstraint, lifestyleConstraints]
  · simp [matchesFilters, matchesConstraint, happ, hu, Date.le_rfl, hle]
  · simp [buildFilters, ageConstraints, SearchQuery.empty, harg, h2,
      textConstraint, lifestyleConstraints]
  · simp [matchesFilters, matchesConstraint, happ, hu, hnle]

/-- C3 witness: on 2024-05-15 a 30-year-old approved profile is matched by
the (30, 30) search and excluded by the 31 search. -/
theorem age_bounds_inclusive_witness :
    buildFilters { SearchQuery.empty with usia_min := some 30, usia_max := some 30 }
      ⟨2024, 5, 15⟩ = some [Constraint.approvedEq true,
        Constraint.birthLe ⟨1994, 5, 15⟩, Constraint.birthGe ⟨1993, 5, 15⟩] ∧
    matchesFilters [Constraint.approvedEq true, Constraint.birthLe ⟨1994, 5, 15⟩,
      Constraint.birthGe ⟨1993, 5, 15⟩] (sampleUser [] []) = true ∧
    buildFilters { SearchQuery.empty with usia_min := some (30 + 1) } ⟨2024, 5, 15⟩ =
      some [Constraint.approvedEq true, Constraint.birthLe ⟨1993, 5, 15⟩] ∧
    matchesFilters [Constraint.approvedEq true, Constraint.birthLe ⟨1993, 5, 15⟩]
      (sampleUser [] []) = false := by
  have H := age_bounds_inclusive ⟨2024, 5, 15⟩ 30 30 ⟨1994, 5, 15⟩ ⟨1993, 5, 15⟩
    ⟨1993, 5, 15⟩ (sampleUser [] []) (by decide) (by decide) (by decide) rfl rfl
  exact ⟨H.2.2.2.1, H.2.2.2.2.1, H.2.2.2.2.2.1, H.2.2.2.2.2.2⟩

/-- C3 as universally stated is false: with today = 2024-02-29 (a leap
day) and a = 4, the date today minus 4 years exists (2020-02-29), so an
approved profile born exactly then exists, but the (4, 4) search aborts
with a ValueError while deriving 2019-02-29 for the usia_max bound, so the
search returns no result set at all and the profile is not included. -/
theorem age_bounds_leap_counterexample :
    isValidDate 2020 2 29 = true ∧
    (⟨"p@x", "P", ⟨2020, 2, 29⟩, "lajang", .islam, .moderat, none, none, none,
      none, Lifestyle.defaults, false, true, [], []⟩ : UserDoc).approved = true ∧
    buildFilters { SearchQuery.empty with usia_min := some 4, usia_max := some 4 }
      ⟨2024, 2, 29⟩ = none ∧
    search_profiles [("p", ⟨"p@x", "P", ⟨2020, 2, 29⟩, "lajang", .islam, .moderat,
        none, none, none, none, Lifestyle.defaults, false, true, [], []⟩)]
      { SearchQuery.empty with usia_min := some 4, usia_max := some 4 }
      ⟨2024, 2, 29⟩ = none := by
  refine ⟨by decide, rfl, by decide, by decide⟩

/-- C4: the code contradicts the partial-lifestyle-filter design (the
"Lifestyle partial filter" comment and the exclude_none dump in
src/main.py lines 134-137): because no lifestyle sub-attribute is optional
after validation, a filter supplying only merokok still produces an
equality constraint on all seven sub-attributes, pinning the six absent
ones to their schema defaults. -/
theorem lifestyle_filter_constrains_all_seven :
    ({ merokok := some "sering" } : LifestyleInput).alkohol = none ∧
    buildFilters { SearchQuery.empty with
        lifestyle := some (validateLifestyle { merokok := some "sering" }) }
      ⟨2024, 5, 15⟩ = some [Constraint.approvedEq true,
        Constraint.lifestyleEq "merokok" "sering",
        Constraint.lifestyleEq "alkohol" "tidak",
        Constraint.lifestyleEq "pola_makan" "bebas",
        Constraint.lifestyleEq "aktivitas_fisik" "sedang",
        Constraint.lifestyleEq "kebiasaan_tidur" "fleksibel",
        Constraint.lifestyleEq "pengelolaan_waktu" "campuran",
        Constraint.lifestyleEq "kebiasaan_belanja" "moderat"] :=
  ⟨rfl, by decide⟩

end MatchLife
